import Mathlib

/-!
Verification of the SocialScraper repository (src/app.py, src/scraper.py)
against its natural-language specification.

The Python source is shallowly embedded: pure functions become Lean
functions, the regular expressions of `validate_social_link` become a small
executable regex type with `re.search` semantics, and the browser-driven
scrapers become functions over an explicit session oracle, with Python
exceptions modelled by `Except`.
-/

namespace SocialScraper

/-! ## Regex embedding for `validate_social_link` (src/app.py)

The eight patterns in `platform_patterns` only use: literal characters,
character classes (`\w`, `\d`, explicit sets), `+` on a class, `?` on a
single character, and the `$` end anchor.  `Regex` covers exactly these
constructs; `searchAux` implements Python `re.search` (match starting at
any position).  Without `re.MULTILINE`, Python `$` matches at the end of
the string or just before a newline that is the string's last character —
`.eos` models both positions.

Python `\w` and `\d` are Unicode by default: `\w` is the set of Unicode
word characters (`str.isalnum()` characters plus the underscore) and `\d`
the set of Unicode decimal digits.  Rather than hard-coding an
approximation of the Unicode tables, the embedding takes the two class
sets as a parameter `PyCharClasses` and every theorem about the
classifier holds for each instantiation — in particular for Python's own
tables.  `asciiClasses` is the ASCII fragment, which agrees with Python's
tables on every ASCII character; it is used to evaluate the concrete
witnesses, whose URLs are all-ASCII.
-/

inductive Regex where
  | eps  : Regex
  | cls  : (Char → Bool) → Regex
  | plus : (Char → Bool) → Regex
  | opt  : Regex → Regex
  | seq  : Regex → Regex → Regex
  | eos  : Regex

/-- Predicate `matchMany p k s`: some (possibly empty) prefix of `s` consists of
characters satisfying `p`, and the continuation `k` accepts the rest. -/
def matchMany (p : Char → Bool) (k : List Char → Bool) : List Char → Bool
  | [] => k []
  | c :: s => k (c :: s) || (p c && matchMany p k s)

/-- CPS matcher: `matchR r s k` holds iff some prefix of `s` is matched by
`r` and `k` accepts the remaining suffix.  The `.eos` case is Python `$`
without `re.MULTILINE`: it is zero-width and holds at the very end of the
string and also just before a trailing newline. -/
def matchR : Regex → List Char → (List Char → Bool) → Bool
  | .eps, s, k => k s
  | .cls _, [], _ => false
  | .cls p, c :: s, k => p c && k s
  | .plus _, [], _ => false
  | .plus p, c :: s, k => p c && matchMany p k s
  | .opt r, s, k => k s || matchR r s k
  | .seq r₁ r₂, s, k => matchR r₁ s (fun s' => matchR r₂ s' k)
  | .eos, s, k => (s.isEmpty || s == ['\n']) && k s

/-- Python `re.search` semantics: try to match at every starting position. -/
def searchAux (r : Regex) : List Char → Bool
  | [] => matchR r [] (fun _ => true)
  | c :: s => matchR r (c :: s) (fun _ => true) || searchAux r s

/-- Literal string as a regex. -/
def litR : List Char → Regex
  | [] => .eps
  | c :: cs => .seq (.cls (· == c)) (litR cs)

def lit (s : String) : Regex := litR s.data

/-- Sequence a list of regexes. -/
def seqs : List Regex → Regex
  | [] => .eps
  | r :: rs => .seq r (seqs rs)

/-- The two character classes Python's regex engine draws from its Unicode
tables: `w` is `\w` (Unicode word characters: `str.isalnum()` plus `_`),
`d` is `\d` (Unicode decimal digits).  The embedding is parametric in
them; instantiating with Python's actual tables yields the program's
classifier exactly. -/
structure PyCharClasses where
  w : Char → Bool
  d : Char → Bool

/-- The ASCII fragment of the class tables: on every ASCII character it
agrees with Python's Unicode tables (`[a-zA-Z0-9_]` for `\w`, `[0-9]` for
`\d`).  Used only to evaluate witnesses on all-ASCII URLs. -/
def asciiClasses : PyCharClasses :=
  { w := fun c => c.isAlphanum || c == '_'
    d := fun c => c.isDigit }

/-- Pattern `youtube\.com/@?[\w-]+/?$` -/
def ytChannelRe (cc : PyCharClasses) : Regex :=
  seqs [lit "youtube.com/", .opt (.cls (· == '@')),
        .plus (fun c => cc.w c || c == '-'),
        .opt (.cls (· == '/')), .eos]

/-- Pattern `youtube\.com/watch\?v=[\w-]+` -/
def ytVideoRe (cc : PyCharClasses) : Regex :=
  seqs [lit "youtube.com/watch?v=", .plus (fun c => cc.w c || c == '-')]

/-- Pattern `instagram\.com/[\w_.]+/?$` -/
def igProfileRe (cc : PyCharClasses) : Regex :=
  seqs [lit "instagram.com/", .plus (fun c => cc.w c || c == '_' || c == '.'),
        .opt (.cls (· == '/')), .eos]

/-- Pattern `instagram\.com/p/[\w-]+` -/
def igPostRe (cc : PyCharClasses) : Regex :=
  seqs [lit "instagram.com/p/", .plus (fun c => cc.w c || c == '-')]

/-- Pattern `tiktok\.com/@[\w.]+/?$` -/
def ttProfileRe (cc : PyCharClasses) : Regex :=
  seqs [lit "tiktok.com/@", .plus (fun c => cc.w c || c == '.'),
        .opt (.cls (· == '/')), .eos]

/-- Pattern `tiktok\.com/@[\w.]+/video/\d+` -/
def ttVideoRe (cc : PyCharClasses) : Regex :=
  seqs [lit "tiktok.com/@", .plus (fun c => cc.w c || c == '.'),
        lit "/video/", .plus (fun c => cc.d c)]

/-- Pattern `facebook\.com/[\w.]+/?$` -/
def fbProfileRe (cc : PyCharClasses) : Regex :=
  seqs [lit "facebook.com/", .plus (fun c => cc.w c || c == '.'),
        .opt (.cls (· == '/')), .eos]

/-- Pattern `facebook\.com/[\w.]+/posts/[\w-]+` -/
def fbPostRe (cc : PyCharClasses) : Regex :=
  seqs [lit "facebook.com/", .plus (fun c => cc.w c || c == '.'),
        lit "/posts/", .plus (fun c => cc.w c || c == '-')]

/-- The `platform_patterns` dict of `validate_social_link`, in Python dict
insertion order (per platform: the declared table order of link kinds). -/
def platform_patterns (cc : PyCharClasses) : List (String × List (String × Regex)) :=
  [("YouTube",   [("channel", ytChannelRe cc), ("video", ytVideoRe cc)]),
   ("Instagram", [("profile", igProfileRe cc), ("post", igPostRe cc)]),
   ("TikTok",    [("profile", ttProfileRe cc), ("video", ttVideoRe cc)]),
   ("Facebook",  [("profile", fbProfileRe cc), ("post", fbPostRe cc)])]

/-- Lookup in `platform_patterns` with an empty default, as `dict.get` does. -/
def lookupPlatform (cc : PyCharClasses) (platform : String) : List (String × Regex) :=
  match (platform_patterns cc).find? (fun p => p.1 == platform) with
  | some p => p.2
  | none => []

/-- Embedding of `validate_social_link` (src/app.py lines 9-34): iterate the platform's
(link-kind, pattern) pairs in declared order, returning `(True, kind)` at
the first pattern whose `re.search` succeeds, else `(False, "invalid")`. -/
def validate_social_link (cc : PyCharClasses) (platform : String) (link : String) :
    Bool × String :=
  match (lookupPlatform cc platform).find? (fun p => searchAux p.2 link.data) with
  | some p => (true, p.1)
  | none => (false, "invalid")

/-! ## `_format_url` (src/scraper.py lines 91-95) -/

/-- Python `url.rstrip('/')`: remove all trailing `'/'` characters. -/
def rstripSlash (s : String) : String :=
  ⟨(s.data.reverse.dropWhile (· == '/')).reverse⟩

/-- Embedding of `BaseScraper._format_url`: prepend `https://` when the URL has no
scheme, then strip trailing slashes. -/
def _format_url (url : String) : String :=
  if url.startsWith "http://" || url.startsWith "https://" then rstripSlash url
  else rstripSlash ("https://" ++ url)

/-! ## Scraper embedding (src/scraper.py)

Browser interaction is modelled by an oracle `Session` giving the outcome
of every driver call; Python exceptions become `Except PyExc`.  Fixed
`time.sleep` settle delays inside the scrape bodies are not modelled (no
claim refers to them); the sleeps of the retry loops are counted
explicitly because C6/C7 are about them.
-/

/-- Python exceptions, distinguished as far as the scrapers' `except`
clauses distinguish them. -/
inductive PyExc where
  | timeout : PyExc
  | noSuchElement : PyExc
  | exn : String → PyExc
deriving DecidableEq

/-- Oracle for one browser session. -/
structure Session where
  /-- Outcome of the n-th `driver.get` call: `_safe_get` numbers its
  attempts 0,1,2; the scrapers that call `driver.get` directly use call 0. -/
  get : Nat → Except PyExc Unit
  /-- Element lookup (`wait.until` / `find_element`) by
  (strategy, selector), yielding the element's `.text`. -/
  find : String × String → Except PyExc String
  /-- Python `find_element(...).get_attribute(attr)`; `none` models Python `None`. -/
  findAttr : String × String → String → Except PyExc (Option String)
  /-- Python `driver.execute_script(src)`; `none` models a `None` return value. -/
  script : String → Except PyExc (Option String)

/-- Python `str.strip()`: remove leading and trailing whitespace. -/
def pyStrip (s : String) : String :=
  ⟨((s.data.dropWhile Char.isWhitespace).reverse.dropWhile Char.isWhitespace).reverse⟩

/-- Python `s.split('\n')[0]`. -/
def firstLine (s : String) : String := ⟨s.data.takeWhile (fun c => c ≠ '\n')⟩

/-- Assignment `result[k] = v` on a dict whose key `k` already exists: replace the
value in place, preserving key order. -/
def setField (r : List (String × String)) (k v : String) : List (String × String) :=
  r.map (fun kv => if kv.1 == k then (kv.1, v) else kv)

/-- Read access `result[k]`. -/
def getField (r : List (String × String)) (k : String) : Option String :=
  (r.find? (fun kv => kv.1 == k)).map (fun kv => kv.2)

/-- Embedding of `BaseScraper._safe_get` (lines 97-108) from a given attempt index,
paired with the total seconds slept.  The `try/except Exception` catches
everything, so the embedding returns `Bool` — navigation never raises. -/
def safeGetFrom (s : Session) (retryDelay : Nat) :
    Nat → Nat → Bool × Nat
  | _, 0 => (false, 0)
  | attempt, remaining + 1 =>
    match s.get attempt with
    | .ok _ => (true, 0)
    | .error _ =>
      if remaining = 0 then (false, 0)
      else
        let r := safeGetFrom s retryDelay (attempt + 1) remaining
        (r.1, retryDelay + r.2)

/-- Embedding of `_safe_get(url)` as the scrapers call it: `max_retries = 3` (default)
and `self.retry_delay = 2`.  The loop counts down `remaining =
max_retries - attempt`; `remaining = 0` inside the body is the
`attempt == max_retries - 1` test of line 105. -/
def _safe_get (s : Session) : Bool × Nat := safeGetFrom s 2 0 3

/-- Result of the launch loop in `BaseScraper.__init__`. -/
structure StartResult where
  outcome : Except String Unit
  attempts : Nat
  sleep : Nat

/-- The launch retry loop of `BaseScraper.__init__` (lines 32-45) from a
given attempt index: on the last failed attempt it raises the
`Failed to initialize Chrome driver after N attempts` exception carrying
the last cause, otherwise it sleeps `retry_delay` and retries. -/
def startFrom (launch : Nat → Except String Unit) (maxRetries retryDelay : Nat) :
    Nat → Nat → StartResult
  | attempt, 0 => ⟨.ok (), attempt, 0⟩
  | attempt, remaining + 1 =>
    match launch attempt with
    | .ok _ => ⟨.ok (), attempt + 1, 0⟩
    | .error e =>
      if remaining = 0 then
        ⟨.error ("Failed to initialize Chrome driver after " ++ toString maxRetries
          ++ " attempts: " ++ e), attempt + 1, 0⟩
      else
        let r := startFrom launch maxRetries retryDelay (attempt + 1) remaining
        ⟨r.outcome, r.attempts, retryDelay + r.sleep⟩

/-- Embedding of `BaseScraper.__init__`: `self.max_retries = 3`, `self.retry_delay = 2`.
The loop counts down `remaining = max_retries - attempt`; `remaining = 0`
inside the body is the `attempt == max_retries - 1` test of line 43. -/
def scraperInit (launch : Nat → Except String Unit) : StartResult :=
  startFrom launch 3 2 0 3

/-- Embedding of `BaseScraper.__del__` (lines 84-89): quit the driver if one exists,
swallowing any exception (`except: pass`).  `driver` is `none` when the
session never fully initialized; `quitOutcome` is what this call to
`driver.quit()` would do. -/
def scraperDel (driver : Option Unit) (quitOutcome : Except PyExc Unit) :
    Except PyExc Unit :=
  match driver with
  | none => .ok ()
  | some _ =>
    match quitOutcome with
    | .ok _ => .ok ()
    | .error _ => .ok ()

/-- The shared selector-loop shape (`for selector in ...: try: elem =
wait/find; if elem and elem.text.strip(): assign; break; except:
continue`), e.g. YouTubeScraper.scrape_post lines 264-273 and
InstagramScraper.scrape_profile lines 346-353.  Returns the value of the
first selector whose lookup succeeds with non-empty stripped text (if
any), together with the list of selectors attempted, in order. -/
def resolveTrace (lookup : String → Except PyExc String) :
    List String → Option String × List String
  | [] => (none, [])
  | sel :: rest =>
    match lookup sel with
    | .ok t =>
      if pyStrip t ≠ "" then (some (pyStrip t), [sel])
      else
        let r := resolveTrace lookup rest
        (r.1, sel :: r.2)
    | .error _ =>
      let r := resolveTrace lookup rest
      (r.1, sel :: r.2)

/-- The resolved value alone. -/
def resolve (lookup : String → Except PyExc String) (sels : List String) :
    Option String :=
  (resolveTrace lookup sels).1

/-! ### YouTubeScraper -/

/-- Initial result dict of `YouTubeScraper.scrape_profile` (lines 132-137). -/
def ytProfileInit : List (String × String) :=
  [("platform", "YouTube"), ("type", "channel"),
   ("channel_name", "Unknown"), ("subscribers", "Not available")]

/-- Channel-name fallback chain (lines 147-175): XPath, then CSS, then the
`og:title` meta attribute (with the `" - YouTube"` suffix removed); each
method's exception falls through to the next, but a successful lookup with
empty text ends the chain without assigning. -/
def ytChannelNameStep (s : Session) (r : List (String × String)) :
    List (String × String) :=
  match s.find ("xpath", "//yt-formatted-string[contains(@class, \x27ytd-channel-name\x27)]") with
  | .ok t => if pyStrip t ≠ "" then setField r "channel_name" (pyStrip t) else r
  | .error _ =>
    match s.find ("css", "ytd-channel-name h1") with
    | .ok t => if pyStrip t ≠ "" then setField r "channel_name" (pyStrip t) else r
    | .error _ =>
      match s.findAttr ("xpath", "//meta[@property=\x27og:title\x27]") "content" with
      | .ok (some t) =>
        if t ≠ "" then setField r "channel_name" (t.replace " - YouTube" "") else r
      | .ok none => r
      | .error _ => r

/-- Subscriber-count fallback chain (lines 177-205): ID, then XPath, then
CSS. -/
def ytSubscribersStep (s : Session) (r : List (String × String)) :
    List (String × String) :=
  match s.find ("id", "subscriber-count") with
  | .ok t => if pyStrip t ≠ "" then setField r "subscribers" (pyStrip t) else r
  | .error _ =>
    match s.find ("xpath", "//yt-formatted-string[@id=\x27subscriber-count\x27]") with
    | .ok t => if pyStrip t ≠ "" then setField r "subscribers" (pyStrip t) else r
    | .error _ =>
      match s.find ("css", "#metadata-container #subscriber-count") with
      | .ok t => if pyStrip t ≠ "" then setField r "subscribers" (pyStrip t) else r
      | .error _ => r

/-- JavaScript fallback for the channel name (lines 207-216), only run when
it is still `"Unknown"`. -/
def ytChannelJsStep (s : Session) (r : List (String × String)) :
    List (String × String) :=
  if getField r "channel_name" = some "Unknown" then
    match s.script "return document.querySelector(\x27ytd-channel-name\x27).innerText" with
    | .ok (some t) =>
      if t ≠ "" then setField r "channel_name" (pyStrip (firstLine t)) else r
    | .ok none => r
    | .error _ => r
  else r

/-- JavaScript fallback for the subscriber count (lines 218-226). -/
def ytSubsJsStep (s : Session) (r : List (String × String)) :
    List (String × String) :=
  if getField r "subscribers" = some "Not available" then
    match s.script "return document.querySelector(\x27#subscriber-count\x27).innerText" with
    | .ok (some t) => if t ≠ "" then setField r "subscribers" (pyStrip t) else r
    | .ok none => r
    | .error _ => r
  else r

/-- Embedding of `YouTubeScraper.scrape_profile` (lines 127-237).  Navigation failure
raises; inside the outer `try`, the scroll `execute_script` is the only
statement that can raise, and the outer `except Exception` answers it with
the current (all-sentinel) result. -/
def ytScrapeProfile (s : Session) (_url : String) :
    Except PyExc (List (String × String)) :=
  if (_safe_get s).1 = false then .error (.exn "Failed to load YouTube channel")
  else
    match s.script "window.scrollTo(0, document.body.scrollHeight/2);" with
    | .error _ => .ok ytProfileInit
    | .ok _ =>
      .ok (ytSubsJsStep s (ytChannelJsStep s
        (ytSubscribersStep s (ytChannelNameStep s ytProfileInit))))

/-- Initial result dict of `YouTubeScraper.scrape_post` (lines 244-250). -/
def ytPostInit : List (String × String) :=
  [("platform", "YouTube"), ("type", "video"),
   ("title", "Unknown"), ("likes", "Not available"), ("views", "Not available")]

/-- The `title_selectors` list (lines 257-262). -/
def title_selectors : List String :=
  ["h1.ytd-video-primary-info-renderer yt-formatted-string",
   "#container h1.ytd-video-primary-info-renderer",
   "ytd-watch-metadata h1.ytd-watch-metadata yt-formatted-string",
   "#title h1 yt-formatted-string"]

/-- The `like_selectors` list (lines 276-281). -/
def like_selectors : List String :=
  ["#top-level-buttons-computed ytd-toggle-button-renderer:first-child #text",
   "ytd-menu-renderer ytd-toggle-button-renderer #text",
   "#info ytd-toggle-button-renderer:first-child #text",
   "ytd-watch-metadata ytd-toggle-button-renderer #text"]

/-- XPath fallback for the title (lines 294-302), only when still
`"Unknown"`. -/
def ytTitleXpathStep (s : Session) (r : List (String × String)) :
    List (String × String) :=
  if getField r "title" = some "Unknown" then
    match s.find ("xpath", "//h1[contains(@class, \x27ytd-video-primary-info-renderer\x27)]//yt-formatted-string") with
    | .ok t => if pyStrip t ≠ "" then setField r "title" (pyStrip t) else r
    | .error _ => r
  else r

/-- Assign the outcome of a selector loop into a field (the loop itself
assigns and breaks; falling out of the loop leaves the field unchanged). -/
def setIfSome (r : List (String × String)) (name : String) (v : Option String) :
    List (String × String) :=
  match v with
  | some t => setField r name t
  | none => r

/-- Embedding of `YouTubeScraper.scrape_post` (lines 239-307). -/
def ytScrapePost (s : Session) (_url : String) :
    Except PyExc (List (String × String)) :=
  if (_safe_get s).1 = false then .error (.exn "Failed to load YouTube video")
  else
    let r := ytPostInit
    let r := setIfSome r "title" (resolve (fun sel => s.find ("css", sel)) title_selectors)
    let r := setIfSome r "likes" (resolve (fun sel => s.find ("css", sel)) like_selectors)
    .ok (ytTitleXpathStep s r)

/-! ### InstagramScraper -/

/-- Initial result dict of `InstagramScraper.scrape_profile` (325-331). -/
def igProfileInit : List (String × String) :=
  [("platform", "Instagram"), ("type", "profile"),
   ("followers", "Not available"), ("following", "Not available"),
   ("posts", "Not available")]

/-- The `follower_selectors` list (lines 340-344). -/
def follower_selectors : List String :=
  ["li:nth-child(2) span span", "span._ac2a", "span.g47SY"]

/-- The `following_selectors` list (lines 356-360). -/
def following_selectors : List String :=
  ["li:nth-child(3) span span", "span._ac2a:nth-child(2)", "span.g47SY:nth-child(2)"]

/-- Embedding of `InstagramScraper.scrape_profile` (lines 323-375).  Note: navigation
failure does not raise here — the sentinel-filled result is returned
(line 334-335).  The field loops go through `_safe_find_element`, which
converts exceptions to `None`; the loop skips `None` exactly as it skips
an in-loop exception, so `resolveTrace` models the composition. -/
def igScrapeProfile (s : Session) (_url : String) :
    Except PyExc (List (String × String)) :=
  let r := igProfileInit
  if (_safe_get s).1 = false then .ok r
  else
    let r := setIfSome r "followers"
      (resolve (fun sel => s.find ("css", sel)) follower_selectors)
    let r := setIfSome r "following"
      (resolve (fun sel => s.find ("css", sel)) following_selectors)
    .ok r

/-- Initial result dict of `InstagramScraper.scrape_post` (379-384). -/
def igPostInit : List (String × String) :=
  [("platform", "Instagram"), ("type", "post"),
   ("likes", "Not available"), ("comments", "Not available")]

/-- Instagram post `like_selectors` (lines 393-397). -/
def ig_like_selectors : List String :=
  ["span.like-count", "section._ae5m span", "span._aacl"]

/-- Embedding of `InstagramScraper.scrape_post` (lines 377-412): same shape as
`scrape_profile` — navigation failure returns the sentinel result. -/
def igScrapePost (s : Session) (_url : String) :
    Except PyExc (List (String × String)) :=
  let r := igPostInit
  if (_safe_get s).1 = false then .ok r
  else
    let r := setIfSome r "likes"
      (resolve (fun sel => s.find ("css", sel)) ig_like_selectors)
    .ok r

/-! ### TikTokScraper and FacebookScraper

These call `self.driver.get(url)` directly (no retries, no URL
formatting), build the result dict only after every lookup succeeded, and
turn a `TimeoutException` anywhere in the `try` block into a generic
`Exception`; any other exception propagates unchanged. -/

/-- Re-raise policy of `except TimeoutException: raise Exception(msg)`. -/
def catchTimeout (msg : String) (e : PyExc) : PyExc :=
  match e with
  | .timeout => .exn msg
  | e => e

/-- Embedding of `TikTokScraper.scrape_profile` (lines 415-430). -/
def ttScrapeProfile (s : Session) (_url : String) :
    Except PyExc (List (String × String)) :=
  match s.get 0 with
  | .error e => .error e
  | .ok _ =>
    match s.find ("css", "strong[data-e2e=\x27followers-count\x27]") with
    | .error e => .error (catchTimeout "Failed to load TikTok profile data" e)
    | .ok followers =>
      match s.find ("css", "strong[data-e2e=\x27following-count\x27]") with
      | .error e => .error (catchTimeout "Failed to load TikTok profile data" e)
      | .ok following =>
        .ok [("platform", "TikTok"), ("type", "profile"),
             ("followers", followers), ("following", following)]

/-- Embedding of `TikTokScraper.scrape_post` (lines 432-445). -/
def ttScrapePost (s : Session) (_url : String) :
    Except PyExc (List (String × String)) :=
  match s.get 0 with
  | .error e => .error e
  | .ok _ =>
    match s.find ("css", "strong[data-e2e=\x27like-count\x27]") with
    | .error e => .error (catchTimeout "Failed to load TikTok video data" e)
    | .ok likes =>
      .ok [("platform", "TikTok"), ("type", "video"), ("likes", likes)]

/-- Embedding of `FacebookScraper.scrape_profile` (lines 448-461). -/
def fbScrapeProfile (s : Session) (_url : String) :
    Except PyExc (List (String × String)) :=
  match s.get 0 with
  | .error e => .error e
  | .ok _ =>
    match s.find ("css", "div[data-key=\x27followers\x27]") with
    | .error e => .error (catchTimeout "Failed to load Facebook profile data" e)
    | .ok followers =>
      .ok [("platform", "Facebook"), ("type", "profile"), ("followers", followers)]

/-- Embedding of `FacebookScraper.scrape_post` (lines 463-476). -/
def fbScrapePost (s : Session) (_url : String) :
    Except PyExc (List (String × String)) :=
  match s.get 0 with
  | .error e => .error e
  | .ok _ =>
    match s.find ("css", "span.like-count") with
    | .error e => .error (catchTimeout "Failed to load Facebook post data" e)
    | .ok likes =>
      .ok [("platform", "Facebook"), ("type", "post"), ("likes", likes)]

/-! ### Dispatch over the eight (variant, operation) pairs -/

inductive Variant where
  | yt | ig | tt | fb
deriving DecidableEq

inductive OpKind where
  | profile | post
deriving DecidableEq

def runOp : Variant → OpKind → Session → String →
    Except PyExc (List (String × String))
  | .yt, .profile => ytScrapeProfile
  | .yt, .post => ytScrapePost
  | .ig, .profile => igScrapeProfile
  | .ig, .post => igScrapePost
  | .tt, .profile => ttScrapeProfile
  | .tt, .post => ttScrapePost
  | .fb, .profile => fbScrapeProfile
  | .fb, .post => fbScrapePost

/-- The field set declared for each (platform, kind), in declared order. -/
def declFields : Variant → OpKind → List String
  | .yt, .profile => ["platform", "type", "channel_name", "subscribers"]
  | .yt, .post => ["platform", "type", "title", "likes", "views"]
  | .ig, .profile => ["platform", "type", "followers", "following", "posts"]
  | .ig, .post => ["platform", "type", "likes", "comments"]
  | .tt, .profile => ["platform", "type", "followers", "following"]
  | .tt, .post => ["platform", "type", "likes"]
  | .fb, .profile => ["platform", "type", "followers"]
  | .fb, .post => ["platform", "type", "likes"]

/-- A session in which every element lookup fails (stale markup) but
navigation and scripts behave: used to witness C4 on a partially-resolved
scrape. -/
def sLookupsFail : Session :=
  { get := fun _ => .ok ()
    find := fun _ => .error .noSuchElement
    findAttr := fun _ _ => .error .noSuchElement
    script := fun _ => .ok none }

/-- A session whose navigation succeeds but whose awaited element lookups
all time out. -/
def sFieldTimeout : Session :=
  { get := fun _ => .ok ()
    find := fun _ => .error .timeout
    findAttr := fun _ _ => .error .timeout
    script := fun _ => .ok none }

/-! ## C5: is navigation failure always fatal?

Only for YouTube.  Instagram returns the sentinel-filled record, and
TikTok/Facebook have no retry wrapper at all — the raw driver exception
propagates.
-/

/-- A session whose navigation always fails. -/
def sNavFail : Session :=
  { get := fun _ => .error (.exn "net::ERR_NAME_NOT_RESOLVED")
    find := fun _ => .error .timeout
    findAttr := fun _ _ => .error .timeout
    script := fun _ => .ok none }

/-! ## C8: the selector loop as a first-match resolver -/

/-- One lookup as the loop body sees it: the stripped text when the
lookup succeeded with non-empty text, `none` otherwise. -/
def lookupNonEmpty (lookup : String → Except PyExc String) (sel : String) :
    Option String :=
  match lookup sel with
  | .ok t => if pyStrip t ≠ "" then some (pyStrip t) else none
  | .error _ => none

/-- Reference first-match function, following the spec's words: map each
locator to its (possibly absent) non-empty trimmed text and take the
first hit in declared order. -/
def resolveRef (lookup : String → Except PyExc String) (sels : List String) :
    Option String :=
  (sels.map (lookupNonEmpty lookup)).findSome? id

/-- Stub lookup for the C8 witness: only selector "b" has non-empty text. -/
def c8Lookup (sel : String) : Except PyExc String :=
  if sel = "b" then .ok " v " else .error .timeout

theorem head?_dropWhile_not {α : Type} (p : α → Bool) :
    ∀ (l : List α) (c : α), (l.dropWhile p).head? = some c → p c = false := by
  intro l
  induction l with
  | nil => intro c h; simp [List.dropWhile] at h
  | cons a t ih =>
    intro c h
    by_cases hpa : p a = true
    · rw [List.dropWhile_cons_of_pos hpa] at h
      exact ih c h
    · rw [List.dropWhile_cons_of_neg hpa] at h
      simp at h
      subst h
      simpa using hpa

theorem rstripSlash_decomp (s : String) :
    s.data = (rstripSlash s).data
      ++ List.replicate (s.data.reverse.takeWhile (· == '/')).length '/' := by
  have hsplit :
      s.data.reverse.takeWhile (· == '/') ++ s.data.reverse.dropWhile (· == '/')
        = s.data.reverse := List.takeWhile_append_dropWhile _ _
  have hrep : s.data.reverse.takeWhile (· == '/')
      = List.replicate (s.data.reverse.takeWhile (· == '/')).length '/' := by
    apply List.eq_replicate_of_mem
    intro b hb
    have := List.mem_takeWhile_imp hb
    simpa using this
  have h2 : (s.data.reverse.takeWhile (· == '/')).reverse
      = List.replicate (s.data.reverse.takeWhile (· == '/')).length '/' := by
    conv_lhs => rw [hrep]
    rw [List.reverse_replicate]
  calc s.data = s.data.reverse.reverse := (List.reverse_reverse _).symm
    _ = (s.data.reverse.takeWhile (· == '/')
          ++ s.data.reverse.dropWhile (· == '/')).reverse := by rw [hsplit]
    _ = (s.data.reverse.dropWhile (· == '/')).reverse
          ++ (s.data.reverse.takeWhile (· == '/')).reverse := by
        rw [List.reverse_append]
    _ = (rstripSlash s).data
          ++ List.replicate (s.data.reverse.takeWhile (· == '/')).length '/' := by
        rw [h2]
        rfl

theorem rstripSlash_no_trailing (s : String) :
    (rstripSlash s).data.getLast? ≠ some '/' := by
  intro h
  have h' : ((s.data.reverse.dropWhile (· == '/')).reverse).getLast? = some '/' := h
  rw [List.getLast?_reverse] at h'
  have := head?_dropWhile_not (· == '/') _ _ h'
  simp at this

/-- First-match characterisation of `List.find?`. -/
theorem find?_eq_some_of_first {α : Type} (p : α → Bool) :
    ∀ (l : List α) (i : Nat) (a : α), l.get? i = some a → p a = true →
      (∀ j, j < i → ∀ b, l.get? j = some b → p b = false) →
      l.find? p = some a := by
  intro l
  induction l with
  | nil => intro i a hget; simp at hget
  | cons x t ih =>
    intro i a hget hp hfirst
    cases i with
    | zero =>
      simp at hget
      subst hget
      rw [List.find?_cons_of_pos _ hp]
    | succ i' =>
      have hx : p x = false := hfirst 0 (Nat.succ_pos i') x rfl
      rw [List.find?_cons_of_neg _ (by simp [hx])]
      exact ih i' a hget hp (fun j hj b hb => hfirst (j + 1) (Nat.succ_lt_succ hj) b hb)

/-- C1: for every interpretation of Python's `\w`/`\d` class tables (in
particular Python's own Unicode tables), for each of the four declared
platforms, if the URL matches some declared pattern then
`validate_social_link` returns `true` paired with the link kind of the
first matching pattern in declared table order. -/
theorem C1_validate_first_match (cc : PyCharClasses) (platform url : String)
    (_hplat : platform ∈ ["YouTube", "Instagram", "TikTok", "Facebook"])
    (i : Nat) (kp : String × Regex)
    (hget : (lookupPlatform cc platform).get? i = some kp)
    (hmatch : searchAux kp.2 url.data = true)
    (hfirst : ∀ j, j < i → ∀ kp', (lookupPlatform cc platform).get? j = some kp' →
      searchAux kp'.2 url.data = false) :
    validate_social_link cc platform url = (true, kp.1) := by
  have hfind := find?_eq_some_of_first (fun p => searchAux p.2 url.data)
    (lookupPlatform cc platform) i kp hget hmatch hfirst
  unfold validate_social_link
  rw [hfind]

/-- Witness for C1: the YouTube video URL scenario on an all-ASCII URL
(so the ASCII class tables agree with Python's); the channel pattern
(index 0) does not match, the video pattern (index 1) does. -/
theorem C1_validate_first_match_witness :
    validate_social_link asciiClasses "YouTube" "https://youtube.com/watch?v=abc123"
      = (true, "video") := by
  have hfirst : ∀ j, j < 1 → ∀ kp',
      (lookupPlatform asciiClasses "YouTube").get? j = some kp' →
      searchAux kp'.2 "https://youtube.com/watch?v=abc123".data = false := by
    intro j hj kp' hk
    have hj0 : j = 0 := by omega
    subst hj0
    have hk' : some ("channel", ytChannelRe asciiClasses) = some kp' := hk
    cases hk'
    decide
  exact C1_validate_first_match asciiClasses "YouTube" "https://youtube.com/watch?v=abc123"
    (by decide) 1 ("video", ytVideoRe asciiClasses) rfl (by decide) hfirst

/-- C2: for every interpretation of Python's `\w`/`\d` class tables (in
particular Python's own Unicode tables), when the URL matches none of the
platform's declared patterns (including an unknown platform, whose
pattern list is empty), `validate_social_link` returns
`(false, "invalid")`. -/
theorem C2_validate_no_match (cc : PyCharClasses) (platform url : String)
    (h : ∀ kp ∈ lookupPlatform cc platform, searchAux kp.2 url.data = false) :
    validate_social_link cc platform url = (false, "invalid") := by
  have hfind : (lookupPlatform cc platform).find? (fun p => searchAux p.2 url.data)
      = none := by
    rw [List.find?_eq_none]
    intro x hx
    simp [h x hx]
  unfold validate_social_link
  rw [hfind]

/-- Witness for C2: the spec scenario platform=TikTok, url="not-a-url"
(all-ASCII, so the ASCII class tables agree with Python's). -/
theorem C2_validate_no_match_witness :
    validate_social_link asciiClasses "TikTok" "not-a-url" = (false, "invalid") :=
  C2_validate_no_match asciiClasses "TikTok" "not-a-url" (by decide)

/-- C10: `_format_url` strips trailing slashes from the URL (prefixing
`https://` first when no scheme is present): the pre-strip URL is the
result followed by some run of `'/'`, and the result never ends in `'/'`. -/
theorem C10_format_url_spec (url : String) :
    (∃ n : Nat,
      (if url.startsWith "http://" || url.startsWith "https://" then url
       else "https://" ++ url).data = (_format_url url).data ++ List.replicate n '/')
    ∧ (_format_url url).data.getLast? ≠ some '/' := by
  unfold _format_url
  by_cases hs : (url.startsWith "http://" || url.startsWith "https://") = true
  · rw [if_pos hs, if_pos hs]
    exact ⟨⟨_, rstripSlash_decomp url⟩, rstripSlash_no_trailing url⟩
  · rw [if_neg hs, if_neg hs]
    exact ⟨⟨_, rstripSlash_decomp ("https://" ++ url)⟩,
      rstripSlash_no_trailing ("https://" ++ url)⟩

/-! ## Key-set preservation lemmas -/

theorem keys_setField (r : List (String × String)) (k v : String) :
    (setField r k v).map Prod.fst = r.map Prod.fst := by
  induction r with
  | nil => rfl
  | cons a t ih =>
    simp only [setField, List.map_cons] at ih ⊢
    rw [ih]
    congr 1
    split <;> rfl

theorem keys_setIfSome (r : List (String × String)) (name : String)
    (v : Option String) : (setIfSome r name v).map Prod.fst = r.map Prod.fst := by
  cases v with
  | none => rfl
  | some t => exact keys_setField r name t

theorem keys_ytChannelNameStep (s : Session) (r : List (String × String)) :
    (ytChannelNameStep s r).map Prod.fst = r.map Prod.fst := by
  unfold ytChannelNameStep
  repeat' split
  all_goals first | rfl | apply keys_setField

theorem keys_ytSubscribersStep (s : Session) (r : List (String × String)) :
    (ytSubscribersStep s r).map Prod.fst = r.map Prod.fst := by
  unfold ytSubscribersStep
  repeat' split
  all_goals first | rfl | apply keys_setField

theorem keys_ytChannelJsStep (s : Session) (r : List (String × String)) :
    (ytChannelJsStep s r).map Prod.fst = r.map Prod.fst := by
  unfold ytChannelJsStep
  repeat' split
  all_goals first | rfl | apply keys_setField

theorem keys_ytSubsJsStep (s : Session) (r : List (String × String)) :
    (ytSubsJsStep s r).map Prod.fst = r.map Prod.fst := by
  unfold ytSubsJsStep
  repeat' split
  all_goals first | rfl | apply keys_setField

theorem keys_ytTitleXpathStep (s : Session) (r : List (String × String)) :
    (ytTitleXpathStep s r).map Prod.fst = r.map Prod.fst := by
  unfold ytTitleXpathStep
  repeat' split
  all_goals first | rfl | apply keys_setField

/-- C4: every result record an operation returns carries exactly the field
set declared for its (platform, kind) — the set is the one fixed in the
initial dict (or literal) before lookups run, and `setField` only replaces
values — no matter how many fields resolved. -/
theorem C4_result_fields (v : Variant) (k : OpKind) (s : Session) (url : String)
    (r : List (String × String)) (h : runOp v k s url = .ok r) :
    r.map Prod.fst = declFields v k := by
  cases v <;> cases k <;>
    simp only [runOp] at h
  case yt.profile =>
    unfold ytScrapeProfile at h
    split at h
    · exact absurd h (by simp)
    · split at h
      · injection h with h
        subst h
        rfl
      · injection h with h
        subst h
        rw [keys_ytSubsJsStep, keys_ytChannelJsStep, keys_ytSubscribersStep,
          keys_ytChannelNameStep]
        rfl
  case yt.post =>
    unfold ytScrapePost at h
    split at h
    · exact absurd h (by simp)
    · injection h with h
      subst h
      rw [keys_ytTitleXpathStep, keys_setIfSome, keys_setIfSome]
      rfl
  case ig.profile =>
    unfold igScrapeProfile at h
    split at h
    · injection h with h
      subst h
      rfl
    · injection h with h
      subst h
      rw [keys_setIfSome, keys_setIfSome]
      rfl
  case ig.post =>
    unfold igScrapePost at h
    split at h
    · injection h with h
      subst h
      rfl
    · injection h with h
      subst h
      rw [keys_setIfSome]
      rfl
  case tt.profile =>
    unfold ttScrapeProfile at h
    repeat' split at h
    all_goals first
      | (injection h with h; subst h; rfl)
      | exact absurd h (by simp)
  case tt.post =>
    unfold ttScrapePost at h
    repeat' split at h
    all_goals first
      | (injection h with h; subst h; rfl)
      | exact absurd h (by simp)
  case fb.profile =>
    unfold fbScrapeProfile at h
    repeat' split at h
    all_goals first
      | (injection h with h; subst h; rfl)
      | exact absurd h (by simp)
  case fb.post =>
    unfold fbScrapePost at h
    repeat' split at h
    all_goals first
      | (injection h with h; subst h; rfl)
      | exact absurd h (by simp)

/-- Witness for C4: with every lookup failing, Instagram scrape_profile
returns its sentinel record, whose keys are the declared field set. -/
theorem C4_result_fields_witness :
    igProfileInit.map Prod.fst = declFields .ig .profile :=
  C4_result_fields .ig .profile sLookupsFail "https://instagram.com/someuser"
    igProfileInit (by rfl)

/-! ## C3: are field-lookup failures always absorbed?

For YouTube and Instagram they are; for TikTok and Facebook a field
lookup timeout raises `Exception(...)` out of the operation, so the claim
as stated is false.
-/

theorem resolve_none_of_fail (lookup : String → Except PyExc String)
    (h : ∀ sel, ∃ e, lookup sel = .error e) :
    ∀ sels, resolve lookup sels = none := by
  intro sels
  induction sels with
  | nil => rfl
  | cons sel rest ih =>
    obtain ⟨e, he⟩ := h sel
    simp only [resolve, resolveTrace, he] at ih ⊢
    exact ih

theorem ytChannelNameStep_id (s : Session) (r : List (String × String))
    (hfind : ∀ loc, ∃ e, s.find loc = .error e)
    (hattr : ∀ loc a, ∃ e, s.findAttr loc a = .error e) :
    ytChannelNameStep s r = r := by
  obtain ⟨e1, h1⟩ := hfind ("xpath", "//yt-formatted-string[contains(@class, \x27ytd-channel-name\x27)]")
  obtain ⟨e2, h2⟩ := hfind ("css", "ytd-channel-name h1")
  obtain ⟨e3, h3⟩ := hattr ("xpath", "//meta[@property=\x27og:title\x27]") "content"
  unfold ytChannelNameStep
  rw [h1, h2, h3]

theorem ytSubscribersStep_id (s : Session) (r : List (String × String))
    (hfind : ∀ loc, ∃ e, s.find loc = .error e) :
    ytSubscribersStep s r = r := by
  obtain ⟨e1, h1⟩ := hfind ("id", "subscriber-count")
  obtain ⟨e2, h2⟩ := hfind ("xpath", "//yt-formatted-string[@id=\x27subscriber-count\x27]")
  obtain ⟨e3, h3⟩ := hfind ("css", "#metadata-container #subscriber-count")
  unfold ytSubscribersStep
  rw [h1, h2, h3]

theorem ytChannelJsStep_id (s : Session) (r : List (String × String))
    (hscript : ∀ src, s.script src = .ok none) :
    ytChannelJsStep s r = r := by
  unfold ytChannelJsStep
  split
  · rw [hscript]
  · rfl

theorem ytSubsJsStep_id (s : Session) (r : List (String × String))
    (hscript : ∀ src, s.script src = .ok none) :
    ytSubsJsStep s r = r := by
  unfold ytSubsJsStep
  split
  · rw [hscript]
  · rfl

theorem ytTitleXpathStep_id (s : Session) (r : List (String × String))
    (hfind : ∀ loc, ∃ e, s.find loc = .error e) :
    ytTitleXpathStep s r = r := by
  obtain ⟨e1, h1⟩ := hfind ("xpath", "//h1[contains(@class, \x27ytd-video-primary-info-renderer\x27)]//yt-formatted-string")
  unfold ytTitleXpathStep
  split
  · rw [h1]
  · rfl

/-- Counterexample to C3: TikTok scrape_profile with navigation succeeding
but the followers lookup timing out raises `Exception("Failed to load
TikTok profile data")` instead of returning a result with a sentinel — a
field-lookup failure escapes the operation as an exception. -/
theorem C3_counterexample :
    ttScrapeProfile sFieldTimeout "https://tiktok.com/@user"
      = .error (.exn "Failed to load TikTok profile data") := rfl

/-- C3 amended: with navigation succeeded, YouTube and Instagram
operations never raise on field-lookup failure and leave failed fields at
their sentinels; but TikTok and Facebook operations raise an exception as
soon as an awaited field lookup times out. -/
theorem C3_field_failures :
    (∀ s url, (_safe_get s).1 = true →
      (∃ r, ytScrapeProfile s url = .ok r) ∧ (∃ r, ytScrapePost s url = .ok r) ∧
      (∃ r, igScrapeProfile s url = .ok r) ∧ (∃ r, igScrapePost s url = .ok r))
  ∧ (∀ s url, (_safe_get s).1 = true →
      (∀ loc, ∃ e, s.find loc = .error e) →
      (∀ loc a, ∃ e, s.findAttr loc a = .error e) →
      (∀ src, s.script src = .ok none) →
      ytScrapeProfile s url = .ok ytProfileInit ∧
      ytScrapePost s url = .ok ytPostInit ∧
      igScrapeProfile s url = .ok igProfileInit ∧
      igScrapePost s url = .ok igPostInit)
  ∧ (∀ s url, s.get 0 = .ok () →
      s.find ("css", "strong[data-e2e=\x27followers-count\x27]") = .error .timeout →
      ttScrapeProfile s url = .error (.exn "Failed to load TikTok profile data"))
  ∧ (∀ s url, s.get 0 = .ok () →
      s.find ("css", "strong[data-e2e=\x27like-count\x27]") = .error .timeout →
      ttScrapePost s url = .error (.exn "Failed to load TikTok video data"))
  ∧ (∀ s url, s.get 0 = .ok () →
      s.find ("css", "div[data-key=\x27followers\x27]") = .error .timeout →
      fbScrapeProfile s url = .error (.exn "Failed to load Facebook profile data"))
  ∧ (∀ s url, s.get 0 = .ok () →
      s.find ("css", "span.like-count") = .error .timeout →
      fbScrapePost s url = .error (.exn "Failed to load Facebook post data")) := by
  refine ⟨?_, ?_, ?_, ?_, ?_, ?_⟩
  · intro s url hnav
    refine ⟨?_, ?_, ?_, ?_⟩
    · unfold ytScrapeProfile
      rw [if_neg (by simp [hnav])]
      cases hsc : s.script "window.scrollTo(0, document.body.scrollHeight/2);" with
      | error e => exact ⟨_, rfl⟩
      | ok v => exact ⟨_, rfl⟩
    · unfold ytScrapePost
      rw [if_neg (by simp [hnav])]
      exact ⟨_, rfl⟩
    · unfold igScrapeProfile
      rw [if_neg (by simp [hnav])]
      exact ⟨_, rfl⟩
    · unfold igScrapePost
      rw [if_neg (by simp [hnav])]
      exact ⟨_, rfl⟩
  · intro s url hnav hfind hattr hscript
    refine ⟨?_, ?_, ?_, ?_⟩
    · unfold ytScrapeProfile
      rw [if_neg (by simp [hnav]), hscript,
        ytChannelNameStep_id s _ hfind hattr, ytSubscribersStep_id s _ hfind,
        ytChannelJsStep_id s _ hscript, ytSubsJsStep_id s _ hscript]
    · unfold ytScrapePost
      rw [if_neg (by simp [hnav])]
      rw [resolve_none_of_fail _ (fun sel => hfind ("css", sel)) title_selectors,
        resolve_none_of_fail _ (fun sel => hfind ("css", sel)) like_selectors]
      simp only [setIfSome]
      rw [ytTitleXpathStep_id s _ hfind]
    · unfold igScrapeProfile
      rw [if_neg (by simp [hnav])]
      rw [resolve_none_of_fail _ (fun sel => hfind ("css", sel)) follower_selectors,
        resolve_none_of_fail _ (fun sel => hfind ("css", sel)) following_selectors]
      rfl
    · unfold igScrapePost
      rw [if_neg (by simp [hnav])]
      rw [resolve_none_of_fail _ (fun sel => hfind ("css", sel)) ig_like_selectors]
      rfl
  · intro s url hget hfind
    unfold ttScrapeProfile
    rw [hget, hfind]
    rfl
  · intro s url hget hfind
    unfold ttScrapePost
    rw [hget, hfind]
    rfl
  · intro s url hget hfind
    unfold fbScrapeProfile
    rw [hget, hfind]
    rfl
  · intro s url hget hfind
    unfold fbScrapePost
    rw [hget, hfind]
    rfl

/-- Witness for C3 (amended): on a session where every lookup fails but
navigation works, YouTube scrape_profile returns its all-sentinel record,
and on the timing-out session TikTok scrape_profile raises. -/
theorem C3_field_failures_witness :
    (ytScrapeProfile sLookupsFail "https://youtube.com/@chan" = .ok ytProfileInit)
    ∧ (ttScrapeProfile sFieldTimeout "https://tiktok.com/@user"
        = .error (.exn "Failed to load TikTok profile data")) :=
  ⟨(C3_field_failures.2.1 sLookupsFail "https://youtube.com/@chan" rfl
      (fun _ => ⟨.noSuchElement, rfl⟩) (fun _ _ => ⟨.noSuchElement, rfl⟩)
      (fun _ => rfl)).1,
   C3_field_failures.2.2.1 sFieldTimeout "https://tiktok.com/@user" rfl rfl⟩

/-- Counterexample to C5: Instagram scrape_profile with navigation failing
(all three attempts) returns a result record (all sentinels) instead of
failing with an error. -/
theorem C5_counterexample :
    igScrapeProfile sNavFail "https://instagram.com/someuser" = .ok igProfileInit := rfl

/-- C5 amended: on navigation failure, YouTube operations raise; Instagram
operations return the sentinel-only record without raising; TikTok and
Facebook operations propagate the raw navigation exception unchanged. -/
theorem C5_navigation_failure :
    (∀ s url, (_safe_get s).1 = false →
      ytScrapeProfile s url = .error (.exn "Failed to load YouTube channel") ∧
      ytScrapePost s url = .error (.exn "Failed to load YouTube video"))
  ∧ (∀ s url, (_safe_get s).1 = false →
      igScrapeProfile s url = .ok igProfileInit ∧
      igScrapePost s url = .ok igPostInit)
  ∧ (∀ s url e, s.get 0 = .error e →
      ttScrapeProfile s url = .error e ∧ ttScrapePost s url = .error e ∧
      fbScrapeProfile s url = .error e ∧ fbScrapePost s url = .error e) := by
  refine ⟨?_, ?_, ?_⟩
  · intro s url h
    constructor
    · unfold ytScrapeProfile
      rw [if_pos h]
    · unfold ytScrapePost
      rw [if_pos h]
  · intro s url h
    constructor
    · unfold igScrapeProfile
      rw [if_pos h]
    · unfold igScrapePost
      rw [if_pos h]
  · intro s url e h
    refine ⟨?_, ?_, ?_, ?_⟩
    · unfold ttScrapeProfile
      rw [h]
    · unfold ttScrapePost
      rw [h]
    · unfold fbScrapeProfile
      rw [h]
    · unfold fbScrapePost
      rw [h]

/-- Witness for C5 (amended): the three behaviours at the concrete
all-navigation-failing session. -/
theorem C5_navigation_failure_witness :
    (ytScrapeProfile sNavFail "https://youtube.com/@chan"
      = .error (.exn "Failed to load YouTube channel"))
    ∧ (igScrapePost sNavFail "https://instagram.com/p/XYZ" = .ok igPostInit)
    ∧ (ttScrapeProfile sNavFail "https://tiktok.com/@user"
      = .error (.exn "net::ERR_NAME_NOT_RESOLVED")) :=
  ⟨(C5_navigation_failure.1 sNavFail "https://youtube.com/@chan" rfl).1,
   (C5_navigation_failure.2.1 sNavFail "https://instagram.com/p/XYZ" rfl).2,
   (C5_navigation_failure.2.2 sNavFail "https://tiktok.com/@user" _ rfl).1⟩

/-! ## C6: the launch retry loop of `BaseScraper.__init__` -/

/-- C6: the launch loop makes at most 3 attempts; a first success returns
immediately with no sleep; success at attempt k (earlier ones failing)
takes k+1 attempts and 2k seconds of sleep; exhaustion raises the
`Failed to initialize...` exception carrying the last cause, after
exactly 3 attempts and two 2-second sleeps. -/
theorem C6_start_retry :
    (∀ launch k, k < 3 → launch k = .ok () →
      (∀ j, j < k → ∃ e, launch j = .error e) →
      scraperInit launch = ⟨.ok (), k + 1, 2 * k⟩)
  ∧ (∀ launch e0 e1 e2, launch 0 = .error e0 → launch 1 = .error e1 →
      launch 2 = .error e2 →
      scraperInit launch
        = ⟨.error ("Failed to initialize Chrome driver after 3 attempts: " ++ e2), 3, 4⟩)
  ∧ (∀ launch, (scraperInit launch).attempts ≤ 3) := by
  have hmsg : ("Failed to initialize Chrome driver after " ++ toString (3 : Nat)
      ++ " attempts: ") = "Failed to initialize Chrome driver after 3 attempts: " := rfl
  have hexh : ∀ launch e0 e1 e2, launch 0 = .error e0 → launch 1 = .error e1 →
      launch 2 = .error e2 →
      scraperInit launch
        = ⟨.error ("Failed to initialize Chrome driver after 3 attempts: " ++ e2), 3, 4⟩ := by
    intro launch e0 e1 e2 h0 h1 h2
    simp only [scraperInit, startFrom, h0, h1, h2]
    rw [hmsg]
    rfl
  refine ⟨?_, hexh, ?_⟩
  · intro launch k hk hok hfirst
    interval_cases k
    · simp only [scraperInit, startFrom, hok]
    · obtain ⟨e0, h0⟩ := hfirst 0 (by omega)
      simp only [scraperInit, startFrom, h0, hok]
      rfl
    · obtain ⟨e0, h0⟩ := hfirst 0 (by omega)
      obtain ⟨e1, h1⟩ := hfirst 1 (by omega)
      simp only [scraperInit, startFrom, h0, h1, hok]
      rfl
  · intro launch
    rcases h0 : launch 0 with e0 | u0
    · rcases h1 : launch 1 with e1 | u1
      · rcases h2 : launch 2 with e2 | u2
        · rw [hexh launch e0 e1 e2 h0 h1 h2]
        · cases u2
          simp [scraperInit, startFrom, h0, h1, h2]
      · cases u1
        simp [scraperInit, startFrom, h0, h1]
    · cases u0
      simp [scraperInit, startFrom, h0]

/-- Witness for C6: a launcher succeeding at once, and one failing all
three times. -/
theorem C6_start_retry_witness :
    (scraperInit (fun _ => .ok ()) = ⟨.ok (), 0 + 1, 2 * 0⟩)
    ∧ (scraperInit (fun n => .error (toString n))
      = ⟨.error ("Failed to initialize Chrome driver after 3 attempts: " ++ "2"), 3, 4⟩) :=
  ⟨C6_start_retry.1 (fun _ => .ok ()) 0 (by omega) rfl (fun j hj => absurd hj (by omega)),
   C6_start_retry.2.1 (fun n => .error (toString n)) "0" "1" "2" rfl rfl rfl⟩

/-! ## C7: `_safe_get` navigation retries -/

/-- C7: navigation never raises — the embedded `try/except Exception`
makes `_safe_get` total with a `Bool` result.  It returns `true` at the
first of at most 3 attempts that succeeds (sleeping `retry_delay = 2`
seconds after each earlier failed attempt, so 2k seconds before success
at attempt k), returns `false` after all 3 attempts fail (4 seconds of
sleep: none after the final failure), and returns `true` only if some
attempt among the first 3 succeeded. -/
theorem C7_safe_get :
    (∀ s k, k < 3 → s.get k = .ok () →
      (∀ j, j < k → ∃ e, s.get j = .error e) →
      _safe_get s = (true, 2 * k))
  ∧ (∀ s, (∀ j, j < 3 → ∃ e, s.get j = .error e) → _safe_get s = (false, 4))
  ∧ (∀ s, (_safe_get s).1 = true → ∃ k, k < 3 ∧ s.get k = .ok ()) := by
  have hexh : ∀ s, (∀ j, j < 3 → ∃ e, s.get j = .error e) → _safe_get s = (false, 4) := by
    intro s h
    obtain ⟨e0, h0⟩ := h 0 (by omega)
    obtain ⟨e1, h1⟩ := h 1 (by omega)
    obtain ⟨e2, h2⟩ := h 2 (by omega)
    simp only [_safe_get, safeGetFrom, h0, h1, h2]
    rfl
  refine ⟨?_, hexh, ?_⟩
  · intro s k hk hok hfirst
    interval_cases k
    · simp only [_safe_get, safeGetFrom, hok]
    · obtain ⟨e0, h0⟩ := hfirst 0 (by omega)
      simp only [_safe_get, safeGetFrom, h0, hok]
      rfl
    · obtain ⟨e0, h0⟩ := hfirst 0 (by omega)
      obtain ⟨e1, h1⟩ := hfirst 1 (by omega)
      simp only [_safe_get, safeGetFrom, h0, h1, hok]
      rfl
  · intro s htrue
    by_contra hn
    push_neg at hn
    have hfail : ∀ j, j < 3 → ∃ e, s.get j = .error e := by
      intro j hj
      rcases hje : s.get j with e | u
      · exact ⟨e, rfl⟩
      · cases u
        exact absurd hje (hn j hj)
    rw [hexh s hfail] at htrue
    simp at htrue

/-- Witness for C7: a session failing attempt 0 and succeeding at
attempt 1 navigates successfully after one 2-second sleep. -/
theorem C7_safe_get_witness :
    _safe_get
      { get := fun n => if n = 0 then .error .timeout else .ok ()
        find := fun _ => .error .timeout
        findAttr := fun _ _ => .error .timeout
        script := fun _ => .ok none } = (true, 2 * 1) :=
  C7_safe_get.1 _ 1 (by omega) rfl
    (fun j hj => ⟨.timeout, by
      have hj0 : j = 0 := by omega
      subst hj0
      rfl⟩)

/-! ## C9: `__del__` teardown safety -/

/-- C9: teardown is total and idempotent — for every driver state
(including `none`, the state after a failed or never-completed `__init__`)
and any two outcomes of the underlying `driver.quit()` calls, calling
`__del__` twice completes both times without raising (the bare
`except: pass` swallows everything). -/
theorem C9_del_safe (driver : Option Unit) (q1 q2 : Except PyExc Unit) :
    scraperDel driver q1 = .ok () ∧ scraperDel driver q2 = .ok () := by
  cases driver with
  | none => exact ⟨rfl, rfl⟩
  | some u =>
    cases q1 with
    | ok v => cases q2 with
      | ok w => exact ⟨rfl, rfl⟩
      | error e => exact ⟨rfl, rfl⟩
    | error e => cases q2 with
      | ok w => exact ⟨rfl, rfl⟩
      | error f => exact ⟨rfl, rfl⟩

theorem resolve_eq_ref (lookup : String → Except PyExc String) :
    ∀ sels, resolve lookup sels = resolveRef lookup sels := by
  intro sels
  induction sels with
  | nil => rfl
  | cons a rest ih =>
    simp only [resolve, resolveTrace, resolveRef, List.map_cons, List.findSome?_cons]
      at ih ⊢
    rcases h : lookup a with e | t
    · simpa [lookupNonEmpty, h] using ih
    · by_cases ht : pyStrip t ≠ ""
      · simp [lookupNonEmpty, h, ht]
      · simpa [lookupNonEmpty, h, ht] using ih

theorem resolveTrace_first (lookup : String → Except PyExc String) :
    ∀ sels k sel, sels.get? k = some sel →
      (∀ j, j < k → ∀ sl, sels.get? j = some sl → lookupNonEmpty lookup sl = none) →
      (lookupNonEmpty lookup sel).isSome = true →
      resolveTrace lookup sels = (lookupNonEmpty lookup sel, sels.take (k + 1)) := by
  intro sels
  induction sels with
  | nil => intro k sel h; simp at h
  | cons a rest ih =>
    intro k sel hget hfirst hsome
    cases k with
    | zero =>
      simp at hget
      subst hget
      rcases h : lookup a with e | t
      · simp [lookupNonEmpty, h] at hsome
      · by_cases ht : pyStrip t ≠ ""
        · have hval : lookupNonEmpty lookup a = some (pyStrip t) := by
            simp only [lookupNonEmpty, h, if_pos ht]
          simp only [resolveTrace, h, if_pos ht, hval, List.take_succ_cons,
            List.take_zero]
        · simp [lookupNonEmpty, h, ht] at hsome
    | succ k' =>
      have ha : lookupNonEmpty lookup a = none := hfirst 0 (by omega) a rfl
      have ihh := ih k' sel (by simpa using hget)
        (fun j hj sl hsl => hfirst (j + 1) (by omega) sl (by simpa using hsl)) hsome
      rcases h : lookup a with e | t
      · simp only [resolveTrace, h, ihh, List.take_succ_cons]
      · by_cases ht : pyStrip t ≠ ""
        · simp [lookupNonEmpty, h, ht] at ha
        · simp only [resolveTrace, h, if_neg ht, ihh, List.take_succ_cons]

theorem resolveTrace_exhaust (lookup : String → Except PyExc String) :
    ∀ sels, (∀ sl ∈ sels, lookupNonEmpty lookup sl = none) →
      resolveTrace lookup sels = (none, sels) := by
  intro sels
  induction sels with
  | nil => intro h; rfl
  | cons a rest ih =>
    intro h
    have ha := h a (by simp)
    have hrest := ih (fun sl hsl => h sl (by simp [hsl]))
    rcases hl : lookup a with e | t
    · simp [resolveTrace, hl, hrest]
    · by_cases ht : pyStrip t ≠ ""
      · simp [lookupNonEmpty, hl, ht] at ha
      · simp [resolveTrace, hl, ht, hrest]

/-- C8: the selector loop is the reference first-match resolver.  An empty
locator list yields no value and attempts no lookup; the loop refines the
spec's first-match function; when the k-th locator is the first to yield
non-empty trimmed text, its value is returned and exactly the locators up
to and including position k were attempted, each once, in order; and when
every locator fails the sentinel is kept and all locators were attempted. -/
theorem C8_resolver_first_match :
    (∀ lookup, resolveTrace lookup [] = (none, []))
  ∧ (∀ lookup sels, resolve lookup sels = resolveRef lookup sels)
  ∧ (∀ lookup sels k sel, sels.get? k = some sel →
      (∀ j, j < k → ∀ sl, sels.get? j = some sl → lookupNonEmpty lookup sl = none) →
      (lookupNonEmpty lookup sel).isSome = true →
      resolveTrace lookup sels = (lookupNonEmpty lookup sel, sels.take (k + 1)))
  ∧ (∀ lookup sels, (∀ sl ∈ sels, lookupNonEmpty lookup sl = none) →
      resolveTrace lookup sels = (none, sels)) :=
  ⟨fun _ => rfl, resolve_eq_ref, resolveTrace_first, resolveTrace_exhaust⟩

/-- Witness for C8: with only the second of three selectors succeeding,
the loop returns that selector's trimmed text and attempted exactly the
first two selectors, in order. -/
theorem C8_resolver_first_match_witness :
    resolveTrace c8Lookup ["a", "b", "c"] = (some "v", ["a", "b"]) := by
  have h := C8_resolver_first_match.2.2.1 c8Lookup ["a", "b", "c"] 1 "b" rfl
    (fun j hj sl hsl => by
      have hj0 : j = 0 := by omega
      subst hj0
      have hsl' : some "a" = some sl := hsl
      cases hsl'
      rfl)
    rfl
  rw [h]
  rfl

/-- Witness for C9: teardown with a live driver whose two `quit()` calls
both raise still completes both times. -/
theorem C9_del_safe_witness :
    scraperDel (some ()) (Except.error PyExc.timeout) = .ok ()
    ∧ scraperDel (some ()) (Except.error (PyExc.exn "quit failed")) = .ok () :=
  C9_del_safe (some ()) (Except.error PyExc.timeout) (Except.error (PyExc.exn "quit failed"))

/-- Witness for C10: a schemeless URL with three trailing slashes. -/
theorem C10_format_url_spec_witness :
    (∃ n : Nat,
      (if "youtube.com/@chan///".startsWith "http://"
          || "youtube.com/@chan///".startsWith "https://"
       then "youtube.com/@chan///" else "https://" ++ "youtube.com/@chan///").data
        = (_format_url "youtube.com/@chan///").data ++ List.replicate n '/')
    ∧ (_format_url "youtube.com/@chan///").data.getLast? ≠ some '/' :=
  C10_format_url_spec "youtube.com/@chan///"

end SocialScraper
